import Mathlib

/-!
Verification development for the yellowstone-grpc-json repository.
The definitions below are a shallow embedding of the Rust sources:
src/config.rs (subscription request builder), src/formatters.rs
(per update-kind JSON formatting), src/main.rs (publish worker loop)
and src/metrics.rs (counter registry and periodic delta reporter).
Machine integers (u64, i64, i32) are modelled as Nat / Int; fallible
Rust functions returning anyhow Result are modelled with Except.
External collaborators (filesystem read, the transaction encoder,
the rewards converter, the HTTP metric sink) are parameters.
-/

namespace YellowstoneGrpcJson

/-- UTF-8 bytes of a single unicode code point, as natural numbers. -/
def utf8Bytes (c : Nat) : List Nat :=
  if c < 128 then [c]
  else if c < 2048 then [192 + c / 64, 128 + c % 64]
  else if c < 65536 then [224 + c / 4096, 128 + (c / 64) % 64, 128 + c % 64]
  else [240 + c / 262144, 128 + (c / 4096) % 64, 128 + (c / 64) % 64, 128 + c % 64]

/-- UTF-8 byte sequence of a string; this is what bs58 encodes when the
Rust code applies it to a String such as the block hash. -/
def strBytes (s : String) : List Nat :=
  (s.data.map (fun c => utf8Bytes c.toNat)).flatten

/-- Accumulator loop of decimal digit parsing. -/
def parseDigitsAux : List Char → Nat → Option Nat
  | [], acc => some acc
  | c :: cs, acc =>
    if c.isDigit then parseDigitsAux cs (acc * 10 + (c.toNat - 48)) else none

/-- Rust u64 FromStr (str.parse with target u64): an optional leading
plus sign, then one or more ASCII decimal digits, and the value must
fit in 64 bits; anything else is a parse error. -/
def parseU64 (s : String) : Option Nat :=
  let cs := match s.data with
    | '+' :: rest => rest
    | cs => cs
  match cs with
  | [] => none
  | cs =>
    match parseDigitsAux cs 0 with
    | some n => if n < 2 ^ 64 then some n else none
    | none => none

/-- Helper of splitChar: cut the character list at every separator. -/
def splitCharAux (sep : Char) : List Char → List Char → List String
  | [], acc => [String.mk acc.reverse]
  | c :: cs, acc =>
    if c = sep then String.mk acc.reverse :: splitCharAux sep cs []
    else splitCharAux sep cs (c :: acc)

/-- Rust str split on a single separator character: always at least one
part, an empty last part when the string ends with the separator. -/
def splitChar (sep : Char) (s : String) : List String :=
  splitCharAux sep s.data []

/-- Rust str trim: strip leading and trailing whitespace. -/
def rustTrim (s : String) : String :=
  String.mk (((s.data.dropWhile Char.isWhitespace).reverse.dropWhile Char.isWhitespace).reverse)

/-- The bs58 crate alphabet (Bitcoin base-58). -/
def base58Alphabet : List Char :=
  "123456789ABCDEFGHJKLMNPQRSTUVWXYZabcdefghijkmnopqrstuvwxyz".data

/-- Base-58 digits of a natural number, most significant first; fuel
driven so that the definition is structural and evaluates in the kernel. -/
def base58DigitsAux : Nat → Nat → List Nat
  | 0, _ => []
  | _ + 1, 0 => []
  | fuel + 1, n => base58DigitsAux fuel (n / 58) ++ [n % 58]

/-- bs58 encoding of a byte sequence: one alphabet leading character
per leading zero byte, then the big-endian value in base 58. -/
def base58Encode (bytes : List Nat) : String :=
  let zeros := (bytes.takeWhile (fun b => b == 0)).length
  let n := bytes.foldl (fun acc b => acc * 256 + b) 0
  let digits := base58DigitsAux (n + 1) n
  String.mk (List.replicate zeros '1' ++ digits.map (fun d => base58Alphabet.getD d '1'))

/-- serde_json Value. -/
inductive Json where
  | null
  | bool (b : Bool)
  | num (n : Int)
  | str (s : String)
  | arr (elems : List Json)
  | obj (fields : List (String × Json))

/-- Map insert on the field list of a JSON object: overwrite the value
at an existing key, append otherwise (the serde_json index assignment). -/
def setKey : List (String × Json) → String → Json → List (String × Json)
  | [], k, v => [(k, v)]
  | (k0, v0) :: rest, k, v =>
    if k0 = k then (k, v) :: rest else (k0, v0) :: setKey rest k v

/-- Lookup in the field list of a JSON object. -/
def getKey : List (String × Json) → String → Option Json
  | [], _ => none
  | (k0, v0) :: rest, k => if k0 = k then some v0 else getKey rest k

/-- Field lookup on a JSON value; none when the value is not an object. -/
def jsonGet : Json → String → Option Json
  | .obj fields, k => getKey fields k
  | _, _ => none

/-- Whether an Except value is the ok variant. -/
def exceptIsOk : Except String α → Bool
  | .ok _ => true
  | .error _ => false

/-- Sequential fallible map, stopping at the first error: the shape of
the push loops in get_subscribe_request. -/
def mapMExcept (f : α → Except String β) : List α → Except String (List β)
  | [] => .ok []
  | x :: xs =>
    match f x with
    | .error e => .error e
    | .ok y =>
      match mapMExcept f xs with
      | .error e => .error e
      | .ok ys => .ok (y :: ys)

/-- unwrap_or_else with an empty JSON object, the fallback the publish
worker applies to formatter results. -/
def unwrapOrEmpty : Except String Json → Json
  | .ok v => v
  | .error _ => Json.obj []

/-! ## src/config.rs : filter options and the subscription request -/

/-- yellowstone_grpc_proto CommitmentLevel. -/
inductive CommitmentLevel where
  | processed
  | confirmed
  | finalized
deriving DecidableEq

/-- The i32 wire value of a commitment level. -/
def CommitmentLevel.toI32 : CommitmentLevel → Int
  | .processed => 0
  | .confirmed => 1
  | .finalized => 2

/-- Oneof data of a memcmp account filter; the builder only ever
constructs the base58 variant. -/
inductive AccountsFilterMemcmpOneof where
  | bytes (b : List Nat)
  | base58 (s : String)
  | base64 (s : String)
deriving DecidableEq

/-- Oneof comparator of a lamports account filter. -/
inductive AccountsFilterLamports where
  | eq (v : Nat)
  | ne (v : Nat)
  | lt (v : Nat)
  | gt (v : Nat)
deriving DecidableEq

structure SubscribeRequestFilterAccountsFilterMemcmp where
  offset : Nat
  data : Option AccountsFilterMemcmpOneof
deriving DecidableEq

structure SubscribeRequestFilterAccountsFilterLamports where
  cmp : Option AccountsFilterLamports
deriving DecidableEq

/-- Oneof of a single account sub-filter. -/
inductive AccountsFilterOneof where
  | memcmp (m : SubscribeRequestFilterAccountsFilterMemcmp)
  | datasize (n : Nat)
  | tokenAccountState (b : Bool)
  | lamports (l : SubscribeRequestFilterAccountsFilterLamports)
deriving DecidableEq

structure SubscribeRequestFilterAccountsFilter where
  filter : Option AccountsFilterOneof
deriving DecidableEq

structure SubscribeRequestFilterAccounts where
  nonempty_txn_signature : Option Bool
  account : List String
  owner : List String
  filters : List SubscribeRequestFilterAccountsFilter
deriving DecidableEq

structure SubscribeRequestFilterSlots where
  filter_by_commitment : Option Bool
  interslot_updates : Option Bool
deriving DecidableEq

structure SubscribeRequestFilterTransactions where
  vote : Option Bool
  failed : Option Bool
  signature : Option String
  account_include : List String
  account_exclude : List String
  account_required : List String
deriving DecidableEq

structure SubscribeRequestFilterEntry
deriving DecidableEq

structure SubscribeRequestFilterBlocks where
  account_include : List String
  include_transactions : Option Bool
  include_accounts : Option Bool
  include_entries : Option Bool
deriving DecidableEq

structure SubscribeRequestFilterBlocksMeta
deriving DecidableEq

structure SubscribeRequestAccountsDataSlice where
  offset : Nat
  length : Nat
deriving DecidableEq

structure SubscribeRequestPing where
  id : Int
deriving DecidableEq

/-- The materialized subscription request.  The per-category HashMaps of
the Rust code are modelled as association lists; the builder inserts at
most the single key "client" into each. -/
structure SubscribeRequest where
  from_slot : Option Nat
  slots : List (String × SubscribeRequestFilterSlots)
  accounts : List (String × SubscribeRequestFilterAccounts)
  transactions : List (String × SubscribeRequestFilterTransactions)
  transactions_status : List (String × SubscribeRequestFilterTransactions)
  entry : List (String × SubscribeRequestFilterEntry)
  blocks : List (String × SubscribeRequestFilterBlocks)
  blocks_meta : List (String × SubscribeRequestFilterBlocksMeta)
  commitment : Option Int
  accounts_data_slice : List SubscribeRequestAccountsDataSlice
  ping : Option SubscribeRequestPing
deriving DecidableEq

/-- The declarative filter options (struct Filters in src/config.rs);
every field is optional exactly as in the source. -/
structure Filters where
  accounts : Option Bool := none
  accounts_nonempty_txn_signature : Option Bool := none
  accounts_account : Option (List String) := none
  accounts_account_path : Option String := none
  accounts_owner : Option (List String) := none
  accounts_memcmp : Option (List String) := none
  accounts_datasize : Option Nat := none
  accounts_token_account_state : Option Bool := none
  accounts_lamports : Option (List String) := none
  accounts_data_slice : Option (List String) := none
  slots : Option Bool := none
  slots_filter_by_commitment : Option Bool := none
  transactions : Option Bool := none
  transactions_vote : Option Bool := none
  transactions_failed : Option Bool := none
  transactions_signature : Option String := none
  transactions_account_include : Option (List String) := none
  transactions_account_exclude : Option (List String) := none
  transactions_account_required : Option (List String) := none
  transactions_status : Option Bool := none
  transactions_status_vote : Option Bool := none
  transactions_status_failed : Option Bool := none
  transactions_status_signature : Option String := none
  transactions_status_account_include : Option (List String) := none
  transactions_status_account_exclude : Option (List String) := none
  transactions_status_account_required : Option (List String) := none
  entries : Option Bool := none
  blocks : Option Bool := none
  blocks_account_include : Option (List String) := none
  blocks_include_transactions : Option Bool := none
  blocks_include_accounts : Option Bool := none
  blocks_include_entries : Option Bool := none
  blocks_meta : Option Bool := none
  ping : Option Int := none

/-- One iteration of the memcmp push loop (config.rs lines 186-204):
split on the comma, demand exactly two parts, parse the offset as u64,
trim the data and wrap it as base58. -/
def parseMemcmpEntry (filter : String) : Except String SubscribeRequestFilterAccountsFilter :=
  match splitChar ',' filter with
  | [offset, data] =>
    match parseU64 offset with
    | some off =>
      .ok { filter := some (.memcmp { offset := off, data := some (.base58 (rustTrim data)) }) }
    | none => .error "invalid offset"
  | _ => .error "invalid memcmp"

/-- One iteration of the lamports push loop (config.rs lines 215-239):
split on the colon, demand exactly two parts, parse the value as u64,
then dispatch on the comparator name. -/
def parseLamportsEntry (filter : String) : Except String SubscribeRequestFilterAccountsFilter :=
  match splitChar ':' filter with
  | [cmp, value] =>
    match parseU64 value with
    | some v =>
      if cmp = "eq" then
        .ok { filter := some (.lamports { cmp := some (.eq v) }) }
      else if cmp = "ne" then
        .ok { filter := some (.lamports { cmp := some (.ne v) }) }
      else if cmp = "lt" then
        .ok { filter := some (.lamports { cmp := some (.lt v) }) }
      else if cmp = "gt" then
        .ok { filter := some (.lamports { cmp := some (.gt v) }) }
      else
        .error ("invalid lamports filter: " ++ cmp)
    | none => .error "invalid lamports value"
  | _ => .error "invalid lamports format"

/-- One iteration of the data-slice loop (config.rs lines 318-328). -/
def parseDataSliceEntry (data_slice : String) : Except String SubscribeRequestAccountsDataSlice :=
  match splitChar ',' data_slice with
  | [offset, length] =>
    match parseU64 offset with
    | some o =>
      match parseU64 length with
      | some l => .ok { offset := o, length := l }
      | none => .error "invalid data_slice length"
    | none => .error "invalid data_slice offset"
  | _ => .error "invalid data_slice format"

/-- The accounts sub-filter vector, in the push order of the source:
memcmp entries, then datasize, then token-account-state, then lamports
entries; the first parse failure aborts the build. -/
def buildAccountsFilters (args : Filters) : Except String (List SubscribeRequestFilterAccountsFilter) :=
  match mapMExcept parseMemcmpEntry (args.accounts_memcmp.getD []) with
  | .error e => .error e
  | .ok memcmpFilters =>
    match mapMExcept parseLamportsEntry (args.accounts_lamports.getD []) with
    | .error e => .error e
    | .ok lamportsFilters =>
      .ok (memcmpFilters
        ++ (match args.accounts_datasize with
            | some datasize => [{ filter := some (.datasize datasize) }]
            | none => [])
        ++ (if args.accounts_token_account_state.getD false then
              [{ filter := some (.tokenAccountState true) }]
            else [])
        ++ lamportsFilters)

/-- The accounts category map (config.rs lines 174-250).  The external
JSON address file is the readAccountsFile collaborator; inline addresses
come first, file addresses are appended. -/
def buildAccountsMap (readAccountsFile : String → Except String (List String))
    (args : Filters) : Except String (List (String × SubscribeRequestFilterAccounts)) :=
  if args.accounts.getD false then
    match (match args.accounts_account_path with
           | some path => readAccountsFile path
           | none => .ok []) with
    | .error e => .error e
    | .ok fromPath =>
      match buildAccountsFilters args with
      | .error e => .error e
      | .ok filters =>
        .ok [("client",
          { nonempty_txn_signature := args.accounts_nonempty_txn_signature
            account := args.accounts_account.getD [] ++ fromPath
            owner := args.accounts_owner.getD []
            filters := filters })]
  else
    .ok []

/-- The slots category map (config.rs lines 252-262). -/
def buildSlotsMap (args : Filters) : List (String × SubscribeRequestFilterSlots) :=
  if args.slots.getD false then
    [("client",
      { filter_by_commitment := some (args.slots_filter_by_commitment.getD false)
        interslot_updates := none })]
  else []

/-- The transactions category map (config.rs lines 264-277). -/
def buildTransactionsMap (args : Filters) : List (String × SubscribeRequestFilterTransactions) :=
  if args.transactions.getD false then
    [("client",
      { vote := args.transactions_vote
        failed := args.transactions_failed
        signature := args.transactions_signature
        account_include := args.transactions_account_include.getD []
        account_exclude := args.transactions_account_exclude.getD []
        account_required := args.transactions_account_required.getD [] })]
  else []

/-- The transactions-status category map (config.rs lines 279-292). -/
def buildTransactionsStatusMap (args : Filters) : List (String × SubscribeRequestFilterTransactions) :=
  if args.transactions_status.getD false then
    [("client",
      { vote := args.transactions_status_vote
        failed := args.transactions_status_failed
        signature := args.transactions_status_signature
        account_include := args.transactions_status_account_include.getD []
        account_exclude := args.transactions_status_account_exclude.getD []
        account_required := args.transactions_status_account_required.getD [] })]
  else []

/-- The entries category map (config.rs lines 294-297). -/
def buildEntriesMap (args : Filters) : List (String × SubscribeRequestFilterEntry) :=
  if args.entries.getD false then [("client", ⟨⟩)] else []

/-- The blocks category map (config.rs lines 299-310). -/
def buildBlocksMap (args : Filters) : List (String × SubscribeRequestFilterBlocks) :=
  if args.blocks.getD false then
    [("client",
      { account_include := args.blocks_account_include.getD []
        include_transactions := args.blocks_include_transactions
        include_accounts := args.blocks_include_accounts
        include_entries := args.blocks_include_entries })]
  else []

/-- The blocks-meta category map (config.rs lines 312-315). -/
def buildBlocksMetaMap (args : Filters) : List (String × SubscribeRequestFilterBlocksMeta) :=
  if args.blocks_meta.getD false then [("client", ⟨⟩)] else []

/-- get_subscribe_request (config.rs lines 173-345).  Effects happen in
source order: the accounts block (file read and sub-filter parses) first,
the data-slice parses last, then the request record is assembled. -/
def getSubscribeRequest (readAccountsFile : String → Except String (List String))
    (args : Filters) (commitment : Option CommitmentLevel) :
    Except String SubscribeRequest :=
  match buildAccountsMap readAccountsFile args with
  | .error e => .error e
  | .ok accounts =>
    match mapMExcept parseDataSliceEntry (args.accounts_data_slice.getD []) with
    | .error e => .error e
    | .ok accounts_data_slice =>
      .ok { from_slot := none
            slots := buildSlotsMap args
            accounts := accounts
            transactions := buildTransactionsMap args
            transactions_status := buildTransactionsStatusMap args
            entry := buildEntriesMap args
            blocks := buildBlocksMap args
            blocks_meta := buildBlocksMetaMap args
            commitment := commitment.map (fun x => x.toI32)
            accounts_data_slice := accounts_data_slice
            ping := args.ping.map (fun id => SubscribeRequestPing.mk id) }

/-! ## src/formatters.rs : per update-kind formatting -/

/-- EPOCH_SIZE in src/main.rs line 13. -/
def EPOCH_SIZE : Nat := 432000

/-- The inner transaction payload.  Only the signature bytes are read by
the code under src; the nested transaction and meta protos are consumed
exclusively by the external encoder collaborator. -/
structure SubscribeUpdateTransactionInfo where
  signature : List Nat
  is_vote : Bool
  index : Nat
deriving DecidableEq

structure SubscribeUpdateTransaction where
  transaction : Option SubscribeUpdateTransactionInfo
  slot : Nat
deriving DecidableEq

/-- The external transaction encoder: create_tx_with_meta followed by
encode with JsonParsed; it yields the fields of a JSON object or fails. -/
def TxEncoder : Type := SubscribeUpdateTransactionInfo → Except String (List (String × Json))

/-- format_transaction (formatters.rs lines 40-61): require the inner
payload, run the external encoder, then overlay the slot and the derived
epoch as top-level fields of the encoded object. -/
def formatTransaction (enc : TxEncoder) (msg : SubscribeUpdateTransaction) : Except String Json :=
  match msg.transaction with
  | none => .error "no transaction in the message"
  | some tx =>
    match enc tx with
    | .error e => .error e
    | .ok encoded =>
      let fields := setKey encoded "slot" (Json.num (Int.ofNat msg.slot))
      let fields := setKey fields "epoch" (Json.num (Int.ofNat (msg.slot / EPOCH_SIZE)))
      .ok (Json.obj fields)

structure UnixTimestamp where
  timestamp : Int
deriving DecidableEq

structure BlockHeight where
  block_height : Nat
deriving DecidableEq

structure Reward where
  pubkey : String
  lamports : Int
  post_balance : Nat
  reward_type : Int
  commission : String
deriving DecidableEq

structure Rewards where
  rewards : List Reward
  num_partitions : Option Nat
deriving DecidableEq

structure SubscribeUpdateBlockMeta where
  slot : Nat
  blockhash : String
  rewards : Option Rewards
  block_time : Option UnixTimestamp
  block_height : Option BlockHeight
  parent_slot : Nat
  parent_blockhash : String
  executed_transaction_count : Nat
  entries_count : Nat
deriving DecidableEq

/-- The external rewards converter create_rewards_obj, post-composed with
.ok as in the source; an Option because the source discards its error. -/
def RewardsConv : Type := Rewards → Option Json

/-- format_block_meta (formatters.rs lines 91-103): scalar fields are
copied verbatim; the three optional fields serialize to null when the
option (or the converted rewards value) is absent.  The function itself
never fails. -/
def formatBlockMeta (conv : RewardsConv) (msg : SubscribeUpdateBlockMeta) : Except String Json :=
  .ok (Json.obj [
    ("slot", Json.num (Int.ofNat msg.slot)),
    ("blockhash", Json.str msg.blockhash),
    ("rewards",
      match msg.rewards with
      | none => Json.null
      | some rewards =>
        match conv rewards with
        | none => Json.null
        | some v => v),
    ("blockTime",
      match msg.block_time with
      | none => Json.null
      | some obj => Json.num obj.timestamp),
    ("blockHeight",
      match msg.block_height with
      | none => Json.null
      | some obj => Json.num (Int.ofNat obj.block_height)),
    ("parentSlot", Json.num (Int.ofNat msg.parent_slot)),
    ("parentBlockhash", Json.str msg.parent_blockhash),
    ("executedTransactionCount", Json.num (Int.ofNat msg.executed_transaction_count)),
    ("entriesCount", Json.num (Int.ofNat msg.entries_count))])

/-! ## src/main.rs : the publish worker -/

/-- The internal queue message (enum ProcessingMessage, main.rs 34-40). -/
inductive ProcessingMessage where
  | transaction (tx : SubscribeUpdateTransaction)
  | blockMetadata (meta : SubscribeUpdateBlockMeta)
  | shutdown

/-- The counter registry (struct Metrics, metrics.rs 35-80). -/
structure Metrics where
  processed_transactions : Nat
  processed_accounts : Nat
  errors : Nat
deriving DecidableEq

def Metrics.new : Metrics :=
  { processed_transactions := 0, processed_accounts := 0, errors := 0 }

/-- What a single dequeued message makes the worker publish
(transaction_processor body, main.rs 224-250): the partition key and the
JSON payload, or nothing.  A Transaction without its inner payload is
skipped entirely; a formatter failure is replaced by an empty object. -/
def processMessage (enc : TxEncoder) (conv : RewardsConv) :
    ProcessingMessage → Option (String × Json)
  | .transaction tx =>
    match tx.transaction with
    | some transaction =>
      some (base58Encode transaction.signature, unwrapOrEmpty (formatTransaction enc tx))
    | none => none
  | .blockMetadata block_meta =>
    some (base58Encode (strBytes block_meta.blockhash),
          unwrapOrEmpty (formatBlockMeta conv block_meta))
  | .shutdown => none

/-- The worker loop transaction_processor (main.rs 218-251) over a queue
prefix, returning the final counter registry and the published records in
order.  The registry is received but never touched by the loop body: the
source binds it as the unused parameter _metrics. -/
def transactionProcessor (enc : TxEncoder) (conv : RewardsConv) (metrics : Metrics) :
    List ProcessingMessage → Metrics × List (String × Json)
  | [] => (metrics, [])
  | ProcessingMessage.shutdown :: _ => (metrics, [])
  | msg :: rest =>
    let pubs := match processMessage enc conv msg with
      | some p => [p]
      | none => []
    let r := transactionProcessor enc conv metrics rest
    (r.1, pubs ++ r.2)

/-! ## src/metrics.rs : the delta reporter -/

/-- The last-reported counter values held by the reporter. -/
structure ReporterState where
  last_transactions : Nat
  last_accounts : Nat
  last_errors : Nat
deriving DecidableEq

def ReporterState.new : ReporterState :=
  { last_transactions := 0, last_accounts := 0, last_errors := 0 }

/-- The per-counter delta rule of report_metrics (metrics.rs 147-163). -/
def computeDelta (current last : Nat) : Nat :=
  if last ≤ current then current - last else current

/-- report_metrics (metrics.rs 133-190).  The send collaborator returns
whether the HTTP post succeeded.  The last values are swapped to the
current ones before any send; the three sends run in the fixed order
transactions, accounts, errors, and the question-mark operator aborts the
tick at the first failure.  Returns the new reporter state, the sends
that were attempted (name and delta), and whether the tick succeeded. -/
def reportMetrics (send : String → Nat → Bool) (st : ReporterState) (metrics : Metrics) :
    ReporterState × List (String × Nat) × Bool :=
  let current_transactions := metrics.processed_transactions
  let current_accounts := metrics.processed_accounts
  let current_errors := metrics.errors
  let st1 : ReporterState :=
    { last_transactions := current_transactions
      last_accounts := current_accounts
      last_errors := current_errors }
  let transactions_delta := computeDelta current_transactions st.last_transactions
  let accounts_delta := computeDelta current_accounts st.last_accounts
  let errors_delta := computeDelta current_errors st.last_errors
  if send "yellowstone_processed_transactions" transactions_delta then
    if send "yellowstone_processed_accounts" accounts_delta then
      if send "yellowstone_errors" errors_delta then
        (st1, [("yellowstone_processed_transactions", transactions_delta),
               ("yellowstone_processed_accounts", accounts_delta),
               ("yellowstone_errors", errors_delta)], true)
      else
        (st1, [("yellowstone_processed_transactions", transactions_delta),
               ("yellowstone_processed_accounts", accounts_delta),
               ("yellowstone_errors", errors_delta)], false)
    else
      (st1, [("yellowstone_processed_transactions", transactions_delta),
             ("yellowstone_processed_accounts", accounts_delta)], false)
  else
    (st1, [("yellowstone_processed_transactions", transactions_delta)], false)

/-- The reporter timer loop (MetricsReporter.start, metrics.rs 120-129):
one tick per sampled registry value; a failed tick is only logged, the
loop always continues with the next tick. -/
def runReporter (send : String → Nat → Bool) (st : ReporterState) :
    List Metrics → List (List (String × Nat))
  | [] => []
  | m :: rest =>
    let r := reportMetrics send st m
    r.2.1 :: runReporter send r.1 rest

/-! ## Concrete instances used by witnesses and counterexamples -/

/-- A filesystem collaborator that refuses every read; the claims below
never set accounts_account_path, so it is never consulted. -/
def noFilesystem : String → Except String (List String) := fun _ => .error "file read"

/-- Filter options with the accounts category enabled and one memcmp entry. -/
def memcmpArgs (e : String) : Filters :=
  { accounts := some true, accounts_memcmp := some [e] }

/-- Filter options with the accounts category enabled and one lamports entry. -/
def lamportsArgs (e : String) : Filters :=
  { accounts := some true, accounts_lamports := some [e] }

/-- The request produced for an enabled accounts category carrying exactly
one sub-filter and nothing else. -/
def singleFilterRequest (f : SubscribeRequestFilterAccountsFilter) : SubscribeRequest :=
  { from_slot := none
    slots := []
    accounts := [("client",
      { nonempty_txn_signature := none, account := [], owner := [], filters := [f] })]
    transactions := []
    transactions_status := []
    entry := []
    blocks := []
    blocks_meta := []
    commitment := none
    accounts_data_slice := []
    ping := none }

/-- Filter options enabling accounts, transactions, entries and
blocks-meta, leaving the other categories disabled or absent. -/
def mixedArgs : Filters :=
  { accounts := some true
    slots := some false
    transactions := some true
    entries := some true
    blocks_meta := some true }

/-- The request mixedArgs builds. -/
def mixedRequest : SubscribeRequest :=
  { from_slot := none
    slots := []
    accounts := [("client",
      { nonempty_txn_signature := none, account := [], owner := [], filters := [] })]
    transactions := [("client",
      { vote := none, failed := none, signature := none
        account_include := [], account_exclude := [], account_required := [] })]
    transactions_status := []
    entry := [("client", ⟨⟩)]
    blocks := []
    blocks_meta := [("client", ⟨⟩)]
    commitment := none
    accounts_data_slice := []
    ping := none }

/-- An encoder that always succeeds with an empty object. -/
def encOk : TxEncoder := fun _ => .ok []

/-- An encoder that always fails, standing for a transaction the external
encoder cannot encode. -/
def encFail : TxEncoder := fun _ => .error "failed to encode transaction"

/-- A rewards converter that always discards its input. -/
def convNone : RewardsConv := fun _ => none

def txInfo0 : SubscribeUpdateTransactionInfo :=
  { signature := [0], is_vote := false, index := 0 }

/-- A transaction update whose payload the encoder rejects. -/
def txFail0 : SubscribeUpdateTransaction := { transaction := some txInfo0, slot := 5 }

/-- A transaction update at the first slot of epoch 1. -/
def txSlot432000 : SubscribeUpdateTransaction :=
  { transaction := some txInfo0, slot := 432000 }

/-- A transaction update at the last slot of epoch 0. -/
def txSlot431999 : SubscribeUpdateTransaction :=
  { transaction := some txInfo0, slot := 431999 }

/-- A transaction update with the inner payload absent. -/
def txNone0 : SubscribeUpdateTransaction := { transaction := none, slot := 7 }

/-- A block-meta update lacking rewards, block time and block height. -/
def meta0 : SubscribeUpdateBlockMeta :=
  { slot := 12
    blockhash := "abc"
    rewards := none
    block_time := none
    block_height := none
    parent_slot := 11
    parent_blockhash := "abb"
    executed_transaction_count := 3
    entries_count := 4 }

/-- A metric sink that accepts every report. -/
def sendOk : String → Nat → Bool := fun _ _ => true

/-- A metric sink that rejects exactly the transactions report. -/
def sendFailT : String → Nat → Bool :=
  fun name _ => name != "yellowstone_processed_transactions"

/-- Registry snapshot with the given transactions count and no accounts
or errors. -/
def metricsAt (n : Nat) : Metrics :=
  { processed_transactions := n, processed_accounts := 0, errors := 0 }

/-- The worker run of the C5 counterexample: one well-formed transaction
message processed with a fresh registry. -/
def c5run : Metrics × List (String × Json) :=
  transactionProcessor encOk convNone Metrics.new
    [ProcessingMessage.transaction txSlot432000]

/-! ## Supporting lemmas -/

theorem getKey_setKey_same (l : List (String × Json)) (k : String) (v : Json) :
    getKey (setKey l k v) k = some v := by
  induction l with
  | nil => simp [setKey, getKey]
  | cons hd tl ih =>
    obtain ⟨k0, v0⟩ := hd
    by_cases h : k0 = k
    · simp [setKey, getKey, h]
    · simp [setKey, getKey, h, ih]

theorem getKey_setKey_ne (l : List (String × Json)) (k q : String) (v : Json)
    (h : k ≠ q) : getKey (setKey l k v) q = getKey l q := by
  induction l with
  | nil => simp [setKey, getKey, h]
  | cons hd tl ih =>
    obtain ⟨k0, v0⟩ := hd
    by_cases h0 : k0 = k
    · subst h0
      simp [setKey, getKey, h]
    · simp [setKey, getKey, h0, ih]

theorem parseMemcmpEntry_isOk (e : String) :
    exceptIsOk (parseMemcmpEntry e) = true ↔
      ∃ o d, splitChar ',' e = [o, d] ∧ (parseU64 o).isSome = true := by
  unfold parseMemcmpEntry
  cases hs : splitChar ',' e with
  | nil => simp [hs, exceptIsOk]
  | cons o tail =>
    cases tail with
    | nil => simp [hs, exceptIsOk]
    | cons d tail2 =>
      cases tail2 with
      | nil =>
        cases hp : parseU64 o with
        | none => simp [hs, hp, exceptIsOk]
        | some v => simp [hs, hp, exceptIsOk]
      | cons x rest => simp [hs, exceptIsOk]

theorem parseLamportsEntry_isOk (e : String) :
    exceptIsOk (parseLamportsEntry e) = true ↔
      ∃ c v, splitChar ':' e = [c, v] ∧ (parseU64 v).isSome = true ∧
        (c = "eq" ∨ c = "ne" ∨ c = "lt" ∨ c = "gt") := by
  unfold parseLamportsEntry
  cases hs : splitChar ':' e with
  | nil => simp [hs, exceptIsOk]
  | cons c tail =>
    cases tail with
    | nil => simp [hs, exceptIsOk]
    | cons v tail2 =>
      cases tail2 with
      | nil =>
        cases hp : parseU64 v with
        | none => simp [hs, hp, exceptIsOk]
        | some n =>
          by_cases h1 : c = "eq"
          · subst h1
            simp [hs, hp, exceptIsOk]
            exact ⟨"eq", v, ⟨rfl, rfl⟩, by simp [hp], by simp⟩
          by_cases h2 : c = "ne"
          · subst h2
            simp [hs, hp, exceptIsOk]
            exact ⟨"ne", v, ⟨rfl, rfl⟩, by simp [hp], by simp⟩
          by_cases h3 : c = "lt"
          · subst h3
            simp [hs, hp, exceptIsOk]
            exact ⟨"lt", v, ⟨rfl, rfl⟩, by simp [hp], by simp⟩
          by_cases h4 : c = "gt"
          · subst h4
            simp [hs, hp, exceptIsOk]
            exact ⟨"gt", v, ⟨rfl, rfl⟩, by simp [hp], by simp⟩
          · simp [hs, hp, h1, h2, h3, h4, exceptIsOk]
      | cons x rest => simp [hs, exceptIsOk]

theorem getSubscribeRequest_memcmpArgs (e : String) :
    getSubscribeRequest noFilesystem (memcmpArgs e) none =
      match parseMemcmpEntry e with
      | .error err => .error err
      | .ok f => .ok (singleFilterRequest f) := by
  cases hp : parseMemcmpEntry e <;>
    simp [getSubscribeRequest, buildAccountsMap, buildAccountsFilters, memcmpArgs,
      mapMExcept, hp, buildSlotsMap, buildTransactionsMap, buildTransactionsStatusMap,
      buildEntriesMap, buildBlocksMap, buildBlocksMetaMap, singleFilterRequest]

theorem getSubscribeRequest_lamportsArgs (e : String) :
    getSubscribeRequest noFilesystem (lamportsArgs e) none =
      match parseLamportsEntry e with
      | .error err => .error err
      | .ok f => .ok (singleFilterRequest f) := by
  cases hp : parseLamportsEntry e <;>
    simp [getSubscribeRequest, buildAccountsMap, buildAccountsFilters, lamportsArgs,
      mapMExcept, hp, buildSlotsMap, buildTransactionsMap, buildTransactionsStatusMap,
      buildEntriesMap, buildBlocksMap, buildBlocksMetaMap, singleFilterRequest]

theorem buildAccountsMap_keys (rf : String → Except String (List String)) (a : Filters)
    (accs : List (String × SubscribeRequestFilterAccounts))
    (h : buildAccountsMap rf a = .ok accs) :
    accs.map Prod.fst = if a.accounts.getD false then ["client"] else [] := by
  unfold buildAccountsMap at h
  by_cases hacc : a.accounts.getD false = true
  · rw [if_pos hacc] at h
    rw [if_pos hacc]
    rcases hfp : (match a.accounts_account_path with
                  | some path => rf path
                  | none => .ok []) with e | fp <;> rw [hfp] at h
    · exact absurd h (by simp)
    · rcases hbf : buildAccountsFilters a with e | filters <;> rw [hbf] at h
      · exact absurd h (by simp)
      · simp only [Except.ok.injEq] at h
        rw [← h]
        simp
  · rw [if_neg hacc] at h
    rw [if_neg hacc]
    simp only [Except.ok.injEq] at h
    rw [← h]
    simp

theorem buildSlotsMap_keys (a : Filters) :
    (buildSlotsMap a).map Prod.fst = if a.slots.getD false then ["client"] else [] := by
  by_cases hs : a.slots.getD false = true <;> simp [buildSlotsMap, hs]

theorem buildTransactionsMap_keys (a : Filters) :
    (buildTransactionsMap a).map Prod.fst =
      if a.transactions.getD false then ["client"] else [] := by
  by_cases hs : a.transactions.getD false = true <;> simp [buildTransactionsMap, hs]

theorem buildTransactionsStatusMap_keys (a : Filters) :
    (buildTransactionsStatusMap a).map Prod.fst =
      if a.transactions_status.getD false then ["client"] else [] := by
  by_cases hs : a.transactions_status.getD false = true <;>
    simp [buildTransactionsStatusMap, hs]

theorem buildEntriesMap_keys (a : Filters) :
    (buildEntriesMap a).map Prod.fst = if a.entries.getD false then ["client"] else [] := by
  by_cases hs : a.entries.getD false = true <;> simp [buildEntriesMap, hs]

theorem buildBlocksMap_keys (a : Filters) :
    (buildBlocksMap a).map Prod.fst = if a.blocks.getD false then ["client"] else [] := by
  by_cases hs : a.blocks.getD false = true <;> simp [buildBlocksMap, hs]

theorem buildBlocksMetaMap_keys (a : Filters) :
    (buildBlocksMetaMap a).map Prod.fst =
      if a.blocks_meta.getD false then ["client"] else [] := by
  by_cases hs : a.blocks_meta.getD false = true <;> simp [buildBlocksMetaMap, hs]

/-! ## Claims -/

/-- Claim C1: for every FilterSpec, the subscription request built by
get_subscribe_request contains, for each of the seven categories
(accounts, slots, transactions, transaction-status, entries, blocks,
block-meta), exactly one entry keyed by the constant string "client"
when that category's enable flag is set, and an empty mapping (the field
is always present in the record) when the flag is unset or absent. -/
theorem subscribe_request_category_client_keys
    (rf : String → Except String (List String)) (args : Filters)
    (commitment : Option CommitmentLevel) (req : SubscribeRequest)
    (h : getSubscribeRequest rf args commitment = .ok req) :
    req.accounts.map Prod.fst = (if args.accounts.getD false then ["client"] else []) ∧
    req.slots.map Prod.fst = (if args.slots.getD false then ["client"] else []) ∧
    req.transactions.map Prod.fst =
      (if args.transactions.getD false then ["client"] else []) ∧
    req.transactions_status.map Prod.fst =
      (if args.transactions_status.getD false then ["client"] else []) ∧
    req.entry.map Prod.fst = (if args.entries.getD false then ["client"] else []) ∧
    req.blocks.map Prod.fst = (if args.blocks.getD false then ["client"] else []) ∧
    req.blocks_meta.map Prod.fst =
      (if args.blocks_meta.getD false then ["client"] else []) := by
  unfold getSubscribeRequest at h
  rcases ha : buildAccountsMap rf args with e | accs <;> rw [ha] at h
  · exact absurd h (by simp)
  rcases hd : mapMExcept parseDataSliceEntry (args.accounts_data_slice.getD [])
    with e | ds <;> rw [hd] at h
  · exact absurd h (by simp)
  simp only [Except.ok.injEq] at h
  rw [← h]
  exact ⟨buildAccountsMap_keys rf args accs ha, buildSlotsMap_keys args,
    buildTransactionsMap_keys args, buildTransactionsStatusMap_keys args,
    buildEntriesMap_keys args, buildBlocksMap_keys args, buildBlocksMetaMap_keys args⟩

/-- Witness for C1 at a concrete FilterSpec enabling accounts,
transactions, entries and blocks-meta and leaving the rest off. -/
theorem subscribe_request_category_client_keys_witness :
    getSubscribeRequest noFilesystem mixedArgs none = .ok mixedRequest ∧
    mixedRequest.accounts.map Prod.fst = ["client"] ∧
    mixedRequest.slots.map Prod.fst = [] ∧
    mixedRequest.transactions.map Prod.fst = ["client"] ∧
    mixedRequest.transactions_status.map Prod.fst = [] ∧
    mixedRequest.entry.map Prod.fst = ["client"] ∧
    mixedRequest.blocks.map Prod.fst = [] ∧
    mixedRequest.blocks_meta.map Prod.fst = ["client"] := by
  have h : getSubscribeRequest noFilesystem mixedArgs none = .ok mixedRequest := by rfl
  have t := subscribe_request_category_client_keys noFilesystem mixedArgs none mixedRequest h
  exact ⟨h, t.1, t.2.1, t.2.2.1, t.2.2.2.1, t.2.2.2.2.1, t.2.2.2.2.2.1, t.2.2.2.2.2.2⟩

/-- Counterexample to claim C2 as stated: the memcmp entry "50," is not
rejected; it is accepted with offset 50 and empty base58 data, because
the Rust split on the comma yields the two parts "50" and "". -/
theorem memcmp_trailing_comma_accepted :
    getSubscribeRequest noFilesystem (memcmpArgs "50,") none =
      .ok (singleFilterRequest
        { filter := some (.memcmp { offset := 50, data := some (.base58 "") }) }) := by
  rfl

/-- Claim C2 (amended): with the accounts flag enabled,
get_subscribe_request succeeds on a memcmp entry iff the entry has
exactly one comma and the part before it parses as an unsigned 64-bit
integer; the data part may be empty.  It rejects "abc,AAA" and accepts
"0,3Gx9" producing offset 0 (and accepts "50," producing offset 50 with
empty data, per the counterexample). -/
theorem memcmp_entry_validation :
    (∀ e : String,
      exceptIsOk (getSubscribeRequest noFilesystem (memcmpArgs e) none) = true ↔
        ∃ o d, splitChar ',' e = [o, d] ∧ (parseU64 o).isSome = true) ∧
    exceptIsOk (getSubscribeRequest noFilesystem (memcmpArgs "abc,AAA") none) = false ∧
    getSubscribeRequest noFilesystem (memcmpArgs "0,3Gx9") none =
      .ok (singleFilterRequest
        { filter := some (.memcmp { offset := 0, data := some (.base58 "3Gx9") }) }) := by
  refine ⟨?_, by rfl, by rfl⟩
  intro e
  rw [getSubscribeRequest_memcmpArgs e, ← parseMemcmpEntry_isOk e]
  cases hp : parseMemcmpEntry e <;> simp [hp, exceptIsOk]

/-- Claim C3: with the accounts flag enabled, get_subscribe_request
succeeds on a lamports entry iff the entry splits on the colon into
exactly a comparator in eq, ne, lt, gt and a value parsing as an
unsigned 64-bit integer; it rejects "bogus:5" and "eq:notanumber" and
accepts "eq:100" and "gt:0" producing the matching comparator variant. -/
theorem lamports_entry_validation :
    (∀ e : String,
      exceptIsOk (getSubscribeRequest noFilesystem (lamportsArgs e) none) = true ↔
        ∃ c v, splitChar ':' e = [c, v] ∧ (parseU64 v).isSome = true ∧
          (c = "eq" ∨ c = "ne" ∨ c = "lt" ∨ c = "gt")) ∧
    exceptIsOk (getSubscribeRequest noFilesystem (lamportsArgs "bogus:5") none) = false ∧
    exceptIsOk (getSubscribeRequest noFilesystem (lamportsArgs "eq:notanumber") none)
      = false ∧
    getSubscribeRequest noFilesystem (lamportsArgs "eq:100") none =
      .ok (singleFilterRequest { filter := some (.lamports { cmp := some (.eq 100) }) }) ∧
    getSubscribeRequest noFilesystem (lamportsArgs "gt:0") none =
      .ok (singleFilterRequest { filter := some (.lamports { cmp := some (.gt 0) }) }) := by
  refine ⟨?_, by rfl, by rfl, by rfl, by rfl⟩
  intro e
  rw [getSubscribeRequest_lamportsArgs e, ← parseLamportsEntry_isOk e]
  cases hp : parseLamportsEntry e <;> simp [hp, exceptIsOk]

/-- Claim C4: when the formatter fails on a Transaction message whose
inner payload is present, the publish worker still publishes, under the
original partition key (base-58 of the signature bytes), an empty JSON
record; a BlockMetadata message is always published under base-58 of the
block hash bytes with the same empty-record fallback applied to the
formatter result (format_block_meta itself never fails). -/
theorem format_error_publishes_empty_record (enc : TxEncoder) (conv : RewardsConv) :
    (∀ (tx : SubscribeUpdateTransaction) (txi : SubscribeUpdateTransactionInfo),
      tx.transaction = some txi → exceptIsOk (formatTransaction enc tx) = false →
      processMessage enc conv (.transaction tx) =
        some (base58Encode txi.signature, Json.obj [])) ∧
    (∀ meta : SubscribeUpdateBlockMeta,
      processMessage enc conv (.blockMetadata meta) =
        some (base58Encode (strBytes meta.blockhash),
              unwrapOrEmpty (formatBlockMeta conv meta))) := by
  constructor
  · intro tx txi hp hf
    cases hft : formatTransaction enc tx with
    | ok v => rw [hft] at hf; simp [exceptIsOk] at hf
    | error err => simp [processMessage, hp, hft, unwrapOrEmpty]
  · intro meta
    rfl

/-- Witness for C4: an encoder failure on a concrete transaction still
publishes the empty record under the base-58 key of its signature. -/
theorem format_error_publishes_empty_record_witness :
    txFail0.transaction = some txInfo0 ∧
    exceptIsOk (formatTransaction encFail txFail0) = false ∧
    processMessage encFail convNone (.transaction txFail0) = some ("1", Json.obj []) := by
  have h := (format_error_publishes_empty_record encFail convNone).1 txFail0 txInfo0 rfl rfl
  exact ⟨rfl, rfl, h⟩

/-- Claim C5 evaluation: the publish worker never writes the counter
registry.  The loop thread the registry through unchanged for every
message list, and in particular processing one well-formed Transaction
message from a fresh registry leaves every counter at zero, so no
counter strictly increases. -/
theorem worker_never_increments_metrics :
    (∀ (enc : TxEncoder) (conv : RewardsConv) (metrics : Metrics)
        (msgs : List ProcessingMessage),
      (transactionProcessor enc conv metrics msgs).1 = metrics) ∧
    c5run.1 = Metrics.new ∧
    ¬ (Metrics.new.processed_transactions < c5run.1.processed_transactions ∨
       Metrics.new.processed_accounts < c5run.1.processed_accounts ∨
       Metrics.new.errors < c5run.1.errors) := by
  refine ⟨?_, rfl, by decide⟩
  intro enc conv metrics msgs
  induction msgs with
  | nil => rfl
  | cons msg rest ih =>
    cases msg with
    | transaction tx => simp [transactionProcessor, ih]
    | blockMetadata meta => simp [transactionProcessor, ih]
    | shutdown => rfl

/-- Claim C6: the reporter's per-counter delta is current minus previous
when current is at least previous and current itself on a counter reset,
never an underflow; the counter sequence 0, 5, 5, 12 sampled at three
ticks reports transaction deltas 5, 0, 7, and a reset from 12 to 3
reports 3. -/
theorem reporter_delta_computation :
    (∀ current last : Nat, last ≤ current → computeDelta current last = current - last) ∧
    (∀ current last : Nat, current < last → computeDelta current last = current) ∧
    (∀ (st : ReporterState) (m : Metrics),
      (reportMetrics sendOk st m).2.1 =
        [("yellowstone_processed_transactions",
            computeDelta m.processed_transactions st.last_transactions),
         ("yellowstone_processed_accounts",
            computeDelta m.processed_accounts st.last_accounts),
         ("yellowstone_errors", computeDelta m.errors st.last_errors)]) ∧
    (runReporter sendOk ReporterState.new [metricsAt 5, metricsAt 5, metricsAt 12]).map
        (fun tick => tick.map Prod.snd) = [[5, 0, 0], [0, 0, 0], [7, 0, 0]] ∧
    (reportMetrics sendOk
        { last_transactions := 12, last_accounts := 0, last_errors := 0 }
        (metricsAt 3)).2.1 =
      [("yellowstone_processed_transactions", 3),
       ("yellowstone_processed_accounts", 0),
       ("yellowstone_errors", 0)] := by
  refine ⟨?_, ?_, ?_, by rfl, by rfl⟩
  · intro current last h
    simp [computeDelta, h]
  · intro current last h
    rw [computeDelta, if_neg (by omega)]
  · intro st m
    rfl

/-- Witness for C6 at concrete counter values: delta 7 for a growth from
5 to 12 and delta 3 for a reset from 12 to 3. -/
theorem reporter_delta_computation_witness :
    ((5 : Nat) ≤ 12 ∧ computeDelta 12 5 = 7) ∧ ((3 : Nat) < 12 ∧ computeDelta 3 12 = 3) :=
  ⟨⟨by decide, reporter_delta_computation.1 12 5 (by decide)⟩,
   ⟨by decide, reporter_delta_computation.2.1 3 12 (by decide)⟩⟩

/-- Counterexample to claim C7 as stated: when the transactions report of
a tick fails, the accounts (and errors) reports of that tick are not
attempted, because report_metrics propagates the first send failure. -/
theorem reporter_tick_aborts_on_first_failure :
    (reportMetrics sendFailT ReporterState.new (Metrics.mk 5 3 2)).2.1.map Prod.fst =
      ["yellowstone_processed_transactions"] ∧
    "yellowstone_processed_accounts" ∉
      (reportMetrics sendFailT ReporterState.new (Metrics.mk 5 3 2)).2.1.map Prod.fst := by
  refine ⟨by rfl, ?_⟩
  decide

/-- Claim C7 (amended): at every tick the reporter attempts the reports
in the fixed order transactions, accounts, errors; the transactions
report is always attempted, the attempted reports always form one of the
three prefixes of that order, and a failing transactions report ends the
tick with only itself attempted; a failure never prevents a future tick,
every sampled tick is carried out. -/
theorem reporter_tick_attempt_order (send : String → Nat → Bool) :
    (∀ (st : ReporterState) (m : Metrics),
      ((reportMetrics send st m).2.1.map Prod.fst).head? =
        some "yellowstone_processed_transactions") ∧
    (∀ (st : ReporterState) (m : Metrics),
      (reportMetrics send st m).2.1.map Prod.fst ∈
        [["yellowstone_processed_transactions"],
         ["yellowstone_processed_transactions", "yellowstone_processed_accounts"],
         ["yellowstone_processed_transactions", "yellowstone_processed_accounts",
          "yellowstone_errors"]]) ∧
    (∀ (st : ReporterState) (m : Metrics),
      send "yellowstone_processed_transactions"
          (computeDelta m.processed_transactions st.last_transactions) = false →
      (reportMetrics send st m).2.1.map Prod.fst =
        ["yellowstone_processed_transactions"]) ∧
    (∀ (st : ReporterState) (ms : List Metrics),
      (runReporter send st ms).length = ms.length) := by
  refine ⟨?_, ?_, ?_, ?_⟩
  · intro st m
    simp only [reportMetrics]
    split
    · split
      · split <;> simp
      · simp
    · simp
  · intro st m
    simp only [reportMetrics]
    split
    · split
      · split <;> simp
      · simp
    · simp
  · intro st m h
    simp only [reportMetrics]
    split
    · simp_all
    · simp
  · intro st ms
    induction ms generalizing st with
    | nil => rfl
    | cons m rest ih => simp [runReporter, ih]

/-- Witness for C7 at a sink failing exactly on the transactions report:
only the transactions report of that tick is attempted. -/
theorem reporter_tick_attempt_order_witness :
    sendFailT "yellowstone_processed_transactions"
        (computeDelta (metricsAt 5).processed_transactions
          ReporterState.new.last_transactions) = false ∧
    (reportMetrics sendFailT ReporterState.new (metricsAt 5)).2.1.map Prod.fst =
      ["yellowstone_processed_transactions"] :=
  ⟨rfl, (reporter_tick_attempt_order sendFailT).2.2.1 ReporterState.new (metricsAt 5) rfl⟩

/-- Claim C8: when the inner payload is present and the encoder succeeds,
format_transaction returns an object whose top-level slot field is the
update's slot and whose top-level epoch field is slot divided by 432000
(flooring unsigned division). -/
theorem format_transaction_slot_epoch_fields (enc : TxEncoder)
    (msg : SubscribeUpdateTransaction) (tx : SubscribeUpdateTransactionInfo)
    (encoded : List (String × Json)) (hpayload : msg.transaction = some tx)
    (henc : enc tx = .ok encoded) :
    ∃ j, formatTransaction enc msg = .ok j ∧
      jsonGet j "slot" = some (Json.num (Int.ofNat msg.slot)) ∧
      jsonGet j "epoch" = some (Json.num (Int.ofNat (msg.slot / 432000))) := by
  refine ⟨Json.obj (setKey (setKey encoded "slot" (Json.num (Int.ofNat msg.slot)))
    "epoch" (Json.num (Int.ofNat (msg.slot / EPOCH_SIZE)))), ?_, ?_, ?_⟩
  · simp [formatTransaction, hpayload, henc]
  · show getKey _ "slot" = _
    rw [getKey_setKey_ne _ _ _ _ (by decide), getKey_setKey_same]
  · show getKey _ "epoch" = _
    rw [getKey_setKey_same]
    rfl

/-- Witness for C8: slot 432000 yields epoch 1 and slot 431999 yields
epoch 0. -/
theorem format_transaction_slot_epoch_fields_witness :
    (txSlot432000.transaction = some txInfo0 ∧
      ∃ j, formatTransaction encOk txSlot432000 = .ok j ∧
        jsonGet j "slot" = some (Json.num 432000) ∧
        jsonGet j "epoch" = some (Json.num 1)) ∧
    (∃ j, formatTransaction encOk txSlot431999 = .ok j ∧
        jsonGet j "epoch" = some (Json.num 0)) := by
  constructor
  · refine ⟨rfl, ?_⟩
    have t := format_transaction_slot_epoch_fields encOk txSlot432000 txInfo0 [] rfl rfl
    simpa [txSlot432000] using t
  · obtain ⟨j, h1, h2, h3⟩ :=
      format_transaction_slot_epoch_fields encOk txSlot431999 txInfo0 [] rfl rfl
    exact ⟨j, h1, by simpa [txSlot431999] using h3⟩

/-- Claim C9: format_block_meta never fails, maps the six scalar fields
verbatim, and maps each of rewards, block time and block height to null
when absent in the input. -/
theorem format_block_meta_field_mapping (conv : RewardsConv)
    (msg : SubscribeUpdateBlockMeta) :
    ∃ j, formatBlockMeta conv msg = .ok j ∧
      jsonGet j "slot" = some (Json.num (Int.ofNat msg.slot)) ∧
      jsonGet j "blockhash" = some (Json.str msg.blockhash) ∧
      jsonGet j "parentSlot" = some (Json.num (Int.ofNat msg.parent_slot)) ∧
      jsonGet j "parentBlockhash" = some (Json.str msg.parent_blockhash) ∧
      jsonGet j "executedTransactionCount" =
        some (Json.num (Int.ofNat msg.executed_transaction_count)) ∧
      jsonGet j "entriesCount" = some (Json.num (Int.ofNat msg.entries_count)) ∧
      (msg.rewards = none → jsonGet j "rewards" = some Json.null) ∧
      (msg.block_time = none → jsonGet j "blockTime" = some Json.null) ∧
      (msg.block_height = none → jsonGet j "blockHeight" = some Json.null) := by
  refine ⟨_, rfl, rfl, rfl, rfl, rfl, rfl, rfl, ?_, ?_, ?_⟩
  · intro h
    simp [jsonGet, getKey, h]
  · intro h
    simp [jsonGet, getKey, h]
  · intro h
    simp [jsonGet, getKey, h]

/-- Witness for C9 at a concrete block-meta update lacking rewards,
block time and block height. -/
theorem format_block_meta_field_mapping_witness :
    meta0.rewards = none ∧
    ∃ j, formatBlockMeta convNone meta0 = .ok j ∧
      jsonGet j "slot" = some (Json.num 12) ∧
      jsonGet j "blockhash" = some (Json.str "abc") ∧
      jsonGet j "rewards" = some Json.null ∧
      jsonGet j "blockTime" = some Json.null ∧
      jsonGet j "blockHeight" = some Json.null := by
  obtain ⟨j, h0, h1, h2, h3, h4, h5, h6, hr, hbt, hbh⟩ :=
    format_block_meta_field_mapping convNone meta0
  exact ⟨rfl, j, h0, h1, h2, hr rfl, hbt rfl, hbh rfl⟩

/-- Claim C10: a Transaction message without its inner payload makes the
publish worker publish nothing, derive no key and raise no error, and
the loop continues with the remaining queue unchanged. -/
theorem missing_payload_skips_publication (enc : TxEncoder) (conv : RewardsConv)
    (metrics : Metrics) (tx : SubscribeUpdateTransaction)
    (rest : List ProcessingMessage) (h : tx.transaction = none) :
    processMessage enc conv (.transaction tx) = none ∧
    transactionProcessor enc conv metrics (.transaction tx :: rest) =
      transactionProcessor enc conv metrics rest := by
  constructor
  · simp [processMessage, h]
  · simp [transactionProcessor, processMessage, h]

/-- Witness for C10 at a concrete payload-less transaction followed by a
block-meta message. -/
theorem missing_payload_skips_publication_witness :
    txNone0.transaction = none ∧
    processMessage encOk convNone (.transaction txNone0) = none ∧
    transactionProcessor encOk convNone Metrics.new
        [ProcessingMessage.transaction txNone0, ProcessingMessage.blockMetadata meta0] =
      transactionProcessor encOk convNone Metrics.new
        [ProcessingMessage.blockMetadata meta0] := by
  have t := missing_payload_skips_publication encOk convNone Metrics.new txNone0
    [ProcessingMessage.blockMetadata meta0] rfl
  exact ⟨rfl, t.1, t.2⟩

end YellowstoneGrpcJson
